import Mathlib

/-! The loadable extension of `sample/sqlite-sample.c`.

A shallow embedding of the extension module (`sqlite-sample.c`, `sqlite-sample.h`)
built as a loadable extension, and the properties of its entry point
`sqlite3_sample_init` and of its two SQL callbacks `sample` and `sample_version`.

The module talks to the host only through the routines of the API surface
(`sqlite3_api_routines`).  Every such call is recorded in a log (`World.calls`), so
that "which calls were issued, in which order, with which arguments" is a statement
about a value.  A dereference of a null API pointer has no defined behaviour in C and is
the result `none` here.
-/

set_option linter.unusedVariables false

namespace SqliteSample

/-! ## Constants -/

/-- Status codes are C `int`s. -/
abbrev Status := Int

/-- The status `SQLITE_OK` of the host's header `sqlite3.h`, which is not among the
sources of the module; no theorem below depends on its value. -/
def SQLITE_OK : Status := 0

/-- The status `SQLITE_ERROR` of the host's header `sqlite3.h` (used by example hosts only). -/
def SQLITE_ERROR : Status := 1

/-- The text encoding flag `SQLITE_UTF8` of `sqlite3.h`. -/
def SQLITE_UTF8 : Nat := 1

/-- The function flag `SQLITE_DETERMINISTIC` of `sqlite3.h`. -/
def SQLITE_DETERMINISTIC : Nat := 0x000000800

/-- The destructor value `SQLITE_STATIC` of `sqlite3.h`, `((sqlite3_destructor_type)0)`:
the bytes are constant and the host neither copies nor frees them. -/
def SQLITE_STATIC : Int := 0

/-- The three `#define`s of `sqlite-sample.h`.  The C file is compiled against them, so
the module is a function of this record. -/
structure Header where
  SQLITE_SAMPLE_VERSION : String
  SQLITE_SAMPLE_DATE : String
  SQLITE_SAMPLE_SOURCE : String

/-- The header `sqlite-sample.h` as it is in the repository. -/
def sqlite_sample_h : Header where
  SQLITE_SAMPLE_VERSION := "v0.0.1-alpha.1"
  SQLITE_SAMPLE_DATE := "2024-02-24T22:49:08Z-0800"
  SQLITE_SAMPLE_SOURCE := ""

/-! ## C strings -/

/-- The UTF-8 bytes of the character with code point `c`. -/
def utf8Bytes (c : Nat) : List Nat :=
  if c < 0x80 then [c]
  else if c < 0x800 then [0xC0 + c / 0x40, 0x80 + c % 0x40]
  else if c < 0x10000 then [0xE0 + c / 0x1000, 0x80 + c / 0x40 % 0x40, 0x80 + c % 0x40]
  else [0xF0 + c / 0x40000, 0x80 + c / 0x1000 % 0x40, 0x80 + c / 0x40 % 0x40, 0x80 + c % 0x40]

/-- The bytes of a C string literal: the UTF-8 bytes of the text, then the terminating NUL. -/
def cstr (s : String) : List Nat :=
  (s.toList.map Char.toNat).flatMap utf8Bytes ++ [0]

/-- The bytes a text argument `(z, n)` designates: with a negative `n` everything before
the first NUL byte, otherwise the first `n` bytes. -/
def textBytes (z : List Nat) (n : Int) : List Nat :=
  if n < 0 then z.takeWhile (fun b => b != 0) else z.take n.toNat

/-! ## The API surface -/

/-- The function pointers the module can pass: its two static callbacks.  A null function
pointer is `none : Option Callback`. -/
inductive Callback where
  | sample
  | sample_version
  deriving DecidableEq, Repr

/-- The nine arguments of one `sqlite3_create_function_v2` call.  Pointers are addresses,
`none` is the null pointer (the literal `0` in a pointer position). -/
structure CreateFunctionV2 where
  db : Nat
  zFunctionName : String
  nArg : Int
  eTextRep : Nat
  pApp : Option Nat
  xFunc : Option Callback
  xStep : Option Callback
  xFinal : Option Callback
  xDestroy : Option Callback
  deriving DecidableEq, Repr

/-- The four arguments of one `sqlite3_result_text` call. -/
structure ResultText where
  context : Nat
  z : List Nat
  n : Int
  destructor : Int
  deriving DecidableEq, Repr

/-- One call from the module into the host.  `result_error` is the routine of the API
surface through which a callback would report an error. -/
inductive ApiCall where
  | create_function_v2 (a : CreateFunctionV2)
  | result_text (a : ResultText)
  | result_error (context : Nat) (z : List Nat) (n : Int)
  deriving DecidableEq, Repr

/-- The routines of `sqlite3_api_routines` the module uses, over a host with states `σ`: the
registration routine returns a status and the next host state, `result_text` returns
nothing. -/
structure sqlite3_api_routines (σ : Type) where
  /-- Modelled from the spec: the version field of the "versioned" API surface table; the
  declaration of the table is not among the sources. -/
  version : Nat
  create_function_v2 : CreateFunctionV2 → σ → Status × σ
  result_text : ResultText → σ → σ

/-! ## State -/

/-- Everything a call of the module can touch. -/
structure World (σ : Type) where
  /-- The file-scope pointer `sqlite3_api` that `SQLITE_EXTENSION_INIT1` declares,
  initially null: the only state of the module. -/
  sqlite3_api : Option (sqlite3_api_routines σ)
  /-- The state of the host (its function catalog, its evaluation contexts). -/
  host : σ
  /-- The `char *` variables in memory, by address; `none` is a null string pointer. -/
  errSlots : Nat → Option String
  /-- The calls issued to the host so far, oldest first. -/
  calls : List ApiCall

/-- The state before the module is loaded: `sqlite3_api` is null, nothing was called. -/
def World.initial {σ : Type} (h : σ) : World σ where
  sqlite3_api := none
  host := h
  errSlots := fun _ => none
  calls := []

/-! ## The macros of `sqlite3ext.h` for a loadable extension

`sqlite3ext.h` is the header of the host (SQLite) and is not among the sources of the
module.  For a loadable extension it defines `SQLITE_EXTENSION_INIT1` as the file-scope
declaration `const sqlite3_api_routines *sqlite3_api=0;`, `SQLITE_EXTENSION_INIT2(v)` as
`sqlite3_api=v;`, and every `sqlite3_xxx` routine as `sqlite3_api->xxx`. -/

/-- The statement `SQLITE_EXTENSION_INIT2(v)`, which is `sqlite3_api = v;`: an assignment
to the file-scope pointer, with no test of `v` or of what it points to. -/
def SQLITE_EXTENSION_INIT2 {σ : Type} (v : Option (sqlite3_api_routines σ)) (w : World σ) :
    World σ :=
  { w with sqlite3_api := v }

/-- The call `sqlite3_create_function_v2(...)`, which is
`sqlite3_api->create_function_v2(...)`. -/
def sqlite3_create_function_v2 {σ : Type} (a : CreateFunctionV2) (w : World σ) :
    Option (Status × World σ) :=
  match w.sqlite3_api with
  | none => none
  | some api =>
    let r := api.create_function_v2 a w.host
    some (r.1, { w with host := r.2, calls := w.calls ++ [ApiCall.create_function_v2 a] })

/-- The call `sqlite3_result_text(...)`, which is `sqlite3_api->result_text(...)`. -/
def sqlite3_result_text {σ : Type} (a : ResultText) (w : World σ) : Option (World σ) :=
  match w.sqlite3_api with
  | none => none
  | some api =>
    some { w with host := api.result_text a w.host, calls := w.calls ++ [ApiCall.result_text a] }

/-! ## The module: `sqlite-sample.c` -/

/-- The callback `sample`. -/
def sample {σ : Type} (context : Nat) (argc : Int) (argv : List Nat) (w : World σ) :
    Option (World σ) :=
  sqlite3_result_text
    { context := context
      z := cstr "yo!"
      n := -1
      destructor := SQLITE_STATIC }
    w

/-- The callback `sample_version`. -/
def sample_version {σ : Type} (hdr : Header) (context : Nat) (argc : Int) (argv : List Nat)
    (w : World σ) : Option (World σ) :=
  sqlite3_result_text
    { context := context, z := cstr hdr.SQLITE_SAMPLE_VERSION, n := -1,
      destructor := SQLITE_STATIC } w

/-- The first registration request of `sqlite3_sample_init`. -/
def sampleRequest (db : Nat) : CreateFunctionV2 where
  db := db
  zFunctionName := "sample"
  nArg := 0
  eTextRep := SQLITE_UTF8 ||| SQLITE_DETERMINISTIC
  pApp := none
  xFunc := some Callback.sample
  xStep := none
  xFinal := none
  xDestroy := none

/-- The second registration request of `sqlite3_sample_init`. -/
def sampleVersionRequest (db : Nat) : CreateFunctionV2 where
  db := db
  zFunctionName := "sample_version"
  nArg := 0
  eTextRep := SQLITE_UTF8 ||| SQLITE_DETERMINISTIC
  pApp := none
  xFunc := some Callback.sample_version
  xStep := none
  xFinal := none
  xDestroy := none

/-- The entry point `sqlite3_sample_init(db, pzErrMsg, pApi)`. -/
def sqlite3_sample_init {σ : Type} (db : Nat) (pzErrMsg : Option Nat)
    (pApi : Option (sqlite3_api_routines σ)) (w : World σ) : Option (Status × World σ) :=
  let w0 := SQLITE_EXTENSION_INIT2 pApi w
  let rc0 := SQLITE_OK
  (if rc0 = SQLITE_OK then sqlite3_create_function_v2 (sampleRequest db) w0
    else some (rc0, w0)).bind fun s1 =>
  (if s1.1 = SQLITE_OK then sqlite3_create_function_v2 (sampleVersionRequest db) s1.2
    else some s1).bind fun s2 =>
  some s2

/-! ## Example hosts -/

/-- A host that accepts every registration; its API surface has version 0. -/
def okHost : sqlite3_api_routines Unit where
  version := 0
  create_function_v2 := fun _ h => (SQLITE_OK, h)
  result_text := fun _ h => h

/-- A host that rejects every registration with `SQLITE_ERROR`. -/
def rejectHost : sqlite3_api_routines Unit where
  version := 0
  create_function_v2 := fun _ h => (SQLITE_ERROR, h)
  result_text := fun _ h => h

/-- The function catalog of a host: the registration requests it accepted, oldest first. -/
abbrev Catalog := List CreateFunctionV2

/-- A host with a function catalog and further state `τ`.  `behaviour` decides the status
of each registration request from the request, the catalog and the further state; a request
answered OK is added to the catalog, one answered non-OK adds nothing. -/
def catalogHost {τ : Type} (version : Nat)
    (behaviour : CreateFunctionV2 → Catalog → τ → Status × τ) :
    sqlite3_api_routines (Catalog × τ) where
  version := version
  create_function_v2 := fun a h =>
    ((behaviour a h.1 h.2).1,
      (if (behaviour a h.1 h.2).1 = SQLITE_OK then h.1 ++ [a] else h.1, (behaviour a h.1 h.2).2))
  result_text := fun _ h => h

/-- The behaviour of a host that accepts every name but `sample_version`, which it rejects
with `SQLITE_ERROR`. -/
def rejectSampleVersion (a : CreateFunctionV2) (c : Catalog) (t : Unit) : Status × Unit :=
  (if a.zFunctionName = "sample_version" then SQLITE_ERROR else SQLITE_OK, t)

/-- The state after `okHost` has loaded the module on the database handle 7. -/
def loadedWorld : World Unit where
  sqlite3_api := some okHost
  host := ()
  errSlots := fun _ => none
  calls := [ApiCall.create_function_v2 (sampleRequest 7),
    ApiCall.create_function_v2 (sampleVersionRequest 7)]

/-! ## What one call of the entry point computes -/

/-- The entry point when the host rejects `sample`: one call, and the status of that call. -/
theorem init_sample_rejected {σ : Type} (db : Nat) (pzErrMsg : Option Nat)
    (api : sqlite3_api_routines σ) (w : World σ)
    (h : (api.create_function_v2 (sampleRequest db) w.host).1 ≠ SQLITE_OK) :
    sqlite3_sample_init db pzErrMsg (some api) w =
      some ((api.create_function_v2 (sampleRequest db) w.host).1,
        { sqlite3_api := some api
          host := (api.create_function_v2 (sampleRequest db) w.host).2
          errSlots := w.errSlots
          calls := w.calls ++ [ApiCall.create_function_v2 (sampleRequest db)] }) := by
  simp [sqlite3_sample_init, SQLITE_EXTENSION_INIT2, sqlite3_create_function_v2, h]

/-- The entry point when the host accepts `sample`: two calls, and the status of the second. -/
theorem init_sample_accepted {σ : Type} (db : Nat) (pzErrMsg : Option Nat)
    (api : sqlite3_api_routines σ) (w : World σ)
    (h : (api.create_function_v2 (sampleRequest db) w.host).1 = SQLITE_OK) :
    sqlite3_sample_init db pzErrMsg (some api) w =
      some ((api.create_function_v2 (sampleVersionRequest db)
              (api.create_function_v2 (sampleRequest db) w.host).2).1,
        { sqlite3_api := some api
          host := (api.create_function_v2 (sampleVersionRequest db)
              (api.create_function_v2 (sampleRequest db) w.host).2).2
          errSlots := w.errSlots
          calls := w.calls ++ [ApiCall.create_function_v2 (sampleRequest db),
            ApiCall.create_function_v2 (sampleVersionRequest db)] }) := by
  simp [sqlite3_sample_init, SQLITE_EXTENSION_INIT2, sqlite3_create_function_v2, h]

/-! ## The entry point: status and registration order -/

/-- C1: for every host, `sqlite3_sample_init` returns, and its status is OK exactly when the
registration of `sample` and the registration of `sample_version` both return OK; if the
registration of `sample` returns a non-OK status it returns that status, and otherwise it
returns the status of the registration of `sample_version`. -/
theorem sqlite3_sample_init_status {σ : Type} (db : Nat) (pzErrMsg : Option Nat)
    (api : sqlite3_api_routines σ) (w : World σ) :
    ∃ rc w1, sqlite3_sample_init db pzErrMsg (some api) w = some (rc, w1) ∧
      (rc = SQLITE_OK ↔
        (api.create_function_v2 (sampleRequest db) w.host).1 = SQLITE_OK ∧
        (api.create_function_v2 (sampleVersionRequest db)
          (api.create_function_v2 (sampleRequest db) w.host).2).1 = SQLITE_OK) ∧
      ((api.create_function_v2 (sampleRequest db) w.host).1 ≠ SQLITE_OK →
        rc = (api.create_function_v2 (sampleRequest db) w.host).1) ∧
      ((api.create_function_v2 (sampleRequest db) w.host).1 = SQLITE_OK →
        rc = (api.create_function_v2 (sampleVersionRequest db)
          (api.create_function_v2 (sampleRequest db) w.host).2).1) := by
  by_cases h : (api.create_function_v2 (sampleRequest db) w.host).1 = SQLITE_OK
  · exact ⟨_, _, init_sample_accepted db pzErrMsg api w h,
      ⟨fun h2 => ⟨h, h2⟩, fun h2 => h2.2⟩, fun hn => absurd h hn, fun _ => rfl⟩
  · exact ⟨_, _, init_sample_rejected db pzErrMsg api w h,
      ⟨fun h2 => absurd h2 h, fun h2 => absurd h2.1 h⟩, fun _ => rfl, fun h2 => absurd h2 h⟩

/-- C1 at the host that rejects everything: the entry point returns, with `SQLITE_ERROR`. -/
theorem sqlite3_sample_init_status_witness :
    ∃ rc w1, sqlite3_sample_init 7 none (some rejectHost) (World.initial ()) = some (rc, w1) ∧
      (rc = SQLITE_OK ↔
        (rejectHost.create_function_v2 (sampleRequest 7) (World.initial ()).host).1
          = SQLITE_OK ∧
        (rejectHost.create_function_v2 (sampleVersionRequest 7)
          (rejectHost.create_function_v2 (sampleRequest 7) (World.initial ()).host).2).1
          = SQLITE_OK) ∧
      ((rejectHost.create_function_v2 (sampleRequest 7) (World.initial ()).host).1
          ≠ SQLITE_OK →
        rc = (rejectHost.create_function_v2 (sampleRequest 7) (World.initial ()).host).1) ∧
      ((rejectHost.create_function_v2 (sampleRequest 7) (World.initial ()).host).1
          = SQLITE_OK →
        rc = (rejectHost.create_function_v2 (sampleVersionRequest 7)
          (rejectHost.create_function_v2 (sampleRequest 7) (World.initial ()).host).2).1) :=
  sqlite3_sample_init_status 7 none rejectHost (World.initial ())

/-- C2: if the registration of `sample` returns a non-OK status `s`, then
`sqlite3_sample_init` returns `s` and the only call it issued is the registration of
`sample`; the registration of `sample_version` is not among the calls issued. -/
theorem sqlite3_sample_init_short_circuit {σ : Type} (db : Nat) (pzErrMsg : Option Nat)
    (api : sqlite3_api_routines σ) (w : World σ) (s : Status)
    (hs : (api.create_function_v2 (sampleRequest db) w.host).1 = s)
    (hne : s ≠ SQLITE_OK) :
    ∃ w1, sqlite3_sample_init db pzErrMsg (some api) w = some (s, w1) ∧
      w1.calls = w.calls ++ [ApiCall.create_function_v2 (sampleRequest db)] ∧
      ApiCall.create_function_v2 (sampleVersionRequest db) ∉
        [ApiCall.create_function_v2 (sampleRequest db)] := by
  subst hs
  refine ⟨_, init_sample_rejected db pzErrMsg api w hne, rfl, ?_⟩
  simp [sampleRequest, sampleVersionRequest]

/-- C2 at the host that rejects everything, loaded into the initial state. -/
theorem sqlite3_sample_init_short_circuit_witness :
    (rejectHost.create_function_v2 (sampleRequest 7) (World.initial ()).host).1
        = SQLITE_ERROR ∧
      SQLITE_ERROR ≠ SQLITE_OK ∧
      ∃ w1, sqlite3_sample_init 7 none (some rejectHost) (World.initial ())
          = some (SQLITE_ERROR, w1) ∧
        w1.calls = (World.initial ()).calls ++ [ApiCall.create_function_v2 (sampleRequest 7)] ∧
        ApiCall.create_function_v2 (sampleVersionRequest 7) ∉
          [ApiCall.create_function_v2 (sampleRequest 7)] :=
  ⟨rfl, by decide,
    sqlite3_sample_init_short_circuit 7 none rejectHost (World.initial ()) SQLITE_ERROR rfl
      (by decide)⟩

/-- C3: at a host that accepts every registration, `sqlite3_sample_init` returns OK and the
calls it issued are exactly two registration requests, in this order: `sample` with arity 0,
flags `SQLITE_UTF8 | SQLITE_DETERMINISTIC` and callback `sample`, then `sample_version` with
arity 0, the same flags and callback `sample_version`; in both the user data, the step and
final callbacks and the destructor are null. -/
theorem sqlite3_sample_init_requests {σ : Type} (db : Nat) (pzErrMsg : Option Nat)
    (api : sqlite3_api_routines σ) (w : World σ)
    (hok : ∀ a h, (api.create_function_v2 a h).1 = SQLITE_OK) :
    ∃ w1, sqlite3_sample_init db pzErrMsg (some api) w = some (SQLITE_OK, w1) ∧
      w1.calls = w.calls ++
        [ApiCall.create_function_v2
          { db := db, zFunctionName := "sample", nArg := 0,
            eTextRep := SQLITE_UTF8 ||| SQLITE_DETERMINISTIC,
            pApp := none, xFunc := some Callback.sample,
            xStep := none, xFinal := none, xDestroy := none },
         ApiCall.create_function_v2
          { db := db, zFunctionName := "sample_version", nArg := 0,
            eTextRep := SQLITE_UTF8 ||| SQLITE_DETERMINISTIC,
            pApp := none, xFunc := some Callback.sample_version,
            xStep := none, xFinal := none, xDestroy := none }] := by
  have h := init_sample_accepted db pzErrMsg api w (hok _ _)
  rw [hok] at h
  exact ⟨_, h, rfl⟩

/-- C3 at the host `okHost`, loaded into the initial state. -/
theorem sqlite3_sample_init_requests_witness :
    (∀ a h, (okHost.create_function_v2 a h).1 = SQLITE_OK) ∧
      ∃ w1, sqlite3_sample_init 7 none (some okHost) (World.initial ()) = some (SQLITE_OK, w1) ∧
        w1.calls = (World.initial ()).calls ++
          [ApiCall.create_function_v2
            { db := 7, zFunctionName := "sample", nArg := 0,
              eTextRep := SQLITE_UTF8 ||| SQLITE_DETERMINISTIC,
              pApp := none, xFunc := some Callback.sample,
              xStep := none, xFinal := none, xDestroy := none },
           ApiCall.create_function_v2
            { db := 7, zFunctionName := "sample_version", nArg := 0,
              eTextRep := SQLITE_UTF8 ||| SQLITE_DETERMINISTIC,
              pApp := none, xFunc := some Callback.sample_version,
              xStep := none, xFinal := none, xDestroy := none }] :=
  ⟨fun _ _ => rfl,
    sqlite3_sample_init_requests 7 none okHost (World.initial ()) (fun _ _ => rfl)⟩

/-! ## The callbacks -/

/-- What `sqlite3_result_text` does when the API pointer is bound. -/
theorem sqlite3_result_text_bound {σ : Type} (api : sqlite3_api_routines σ) (w : World σ)
    (a : ResultText) (h : w.sqlite3_api = some api) :
    sqlite3_result_text a w =
      some { w with host := api.result_text a w.host
                    calls := w.calls ++ [ApiCall.result_text a] } := by
  simp [sqlite3_result_text, h]

/-- Loading the module at `okHost` from the initial state gives `loadedWorld`. -/
theorem init_okHost :
    sqlite3_sample_init 7 none (some okHost) (World.initial ()) =
      some (SQLITE_OK, loadedWorld) := rfl

/-- C4: in every state in which the module is loaded (its API pointer is bound), for every
context, `argc` and `argv`, the callback `sample` returns after reporting on the context
the text argument `("yo!", -1)`, whose bytes are the three bytes `y`, `o`, `!` before the
terminating NUL. -/
theorem sample_result {σ : Type} (api : sqlite3_api_routines σ) (w : World σ)
    (context : Nat) (argc : Int) (argv : List Nat) (h : w.sqlite3_api = some api) :
    sample context argc argv w =
        some { w with
          host := api.result_text
            { context := context, z := cstr "yo!", n := -1, destructor := SQLITE_STATIC } w.host
          calls := w.calls ++ [ApiCall.result_text
            { context := context, z := cstr "yo!", n := -1, destructor := SQLITE_STATIC }] } ∧
      cstr "yo!" = [0x79, 0x6F, 0x21, 0] ∧
      textBytes (cstr "yo!") (-1) = [0x79, 0x6F, 0x21] ∧
      "yo!".toList.map Char.toNat = [0x79, 0x6F, 0x21] :=
  ⟨sqlite3_result_text_bound api w _ h, by decide, by decide, by decide⟩

/-- C4 in the state after a successful load, with one argument passed. -/
theorem sample_result_witness :
    loadedWorld.sqlite3_api = some okHost ∧
      (sample 11 1 [5] loadedWorld =
        some { loadedWorld with
          host := okHost.result_text
            { context := 11, z := cstr "yo!", n := -1, destructor := SQLITE_STATIC }
            loadedWorld.host
          calls := loadedWorld.calls ++ [ApiCall.result_text
            { context := 11, z := cstr "yo!", n := -1, destructor := SQLITE_STATIC }] } ∧
      cstr "yo!" = [0x79, 0x6F, 0x21, 0] ∧
      textBytes (cstr "yo!") (-1) = [0x79, 0x6F, 0x21] ∧
      "yo!".toList.map Char.toNat = [0x79, 0x6F, 0x21]) :=
  ⟨rfl, sample_result okHost loadedWorld 11 1 [5] rfl⟩

/-- C5: in every state in which the module is loaded, for every context, `argc` and `argv`,
the callback `sample_version` compiled against `sqlite-sample.h` returns after reporting on
the context the text argument `(SQLITE_SAMPLE_VERSION, -1)`; its bytes are those of
`v0.0.1-alpha.1`; and compiling against a header with another build date and another
source string gives the same result. -/
theorem sample_version_result {σ : Type} (api : sqlite3_api_routines σ) (w : World σ)
    (context : Nat) (argc : Int) (argv : List Nat) (h : w.sqlite3_api = some api) :
    sample_version sqlite_sample_h context argc argv w =
        some { w with
          host := api.result_text
            { context := context, z := cstr sqlite_sample_h.SQLITE_SAMPLE_VERSION, n := -1,
              destructor := SQLITE_STATIC } w.host
          calls := w.calls ++ [ApiCall.result_text
            { context := context, z := cstr sqlite_sample_h.SQLITE_SAMPLE_VERSION, n := -1,
              destructor := SQLITE_STATIC }] } ∧
      sqlite_sample_h.SQLITE_SAMPLE_VERSION = "v0.0.1-alpha.1" ∧
      textBytes (cstr sqlite_sample_h.SQLITE_SAMPLE_VERSION) (-1) =
        [118, 48, 46, 48, 46, 49, 45, 97, 108, 112, 104, 97, 46, 49] ∧
      "v0.0.1-alpha.1".toList.map Char.toNat =
        [118, 48, 46, 48, 46, 49, 45, 97, 108, 112, 104, 97, 46, 49] ∧
      ∀ date source : String,
        sample_version
            { SQLITE_SAMPLE_VERSION := sqlite_sample_h.SQLITE_SAMPLE_VERSION
              SQLITE_SAMPLE_DATE := date
              SQLITE_SAMPLE_SOURCE := source } context argc argv w =
          sample_version sqlite_sample_h context argc argv w :=
  ⟨sqlite3_result_text_bound api w _ h, rfl, by decide, by decide, fun _ _ => rfl⟩

/-- C5 in the state after a successful load. -/
theorem sample_version_result_witness :
    loadedWorld.sqlite3_api = some okHost ∧
      (sample_version sqlite_sample_h 11 0 [] loadedWorld =
        some { loadedWorld with
          host := okHost.result_text
            { context := 11, z := cstr sqlite_sample_h.SQLITE_SAMPLE_VERSION, n := -1,
              destructor := SQLITE_STATIC } loadedWorld.host
          calls := loadedWorld.calls ++ [ApiCall.result_text
            { context := 11, z := cstr sqlite_sample_h.SQLITE_SAMPLE_VERSION, n := -1,
              destructor := SQLITE_STATIC }] } ∧
      sqlite_sample_h.SQLITE_SAMPLE_VERSION = "v0.0.1-alpha.1" ∧
      textBytes (cstr sqlite_sample_h.SQLITE_SAMPLE_VERSION) (-1) =
        [118, 48, 46, 48, 46, 49, 45, 97, 108, 112, 104, 97, 46, 49] ∧
      "v0.0.1-alpha.1".toList.map Char.toNat =
        [118, 48, 46, 48, 46, 49, 45, 97, 108, 112, 104, 97, 46, 49] ∧
      ∀ date source : String,
        sample_version
            { SQLITE_SAMPLE_VERSION := sqlite_sample_h.SQLITE_SAMPLE_VERSION
              SQLITE_SAMPLE_DATE := date
              SQLITE_SAMPLE_SOURCE := source } 11 0 [] loadedWorld =
          sample_version sqlite_sample_h 11 0 [] loadedWorld) :=
  ⟨rfl, sample_version_result okHost loadedWorld 11 0 [] rfl⟩

/-- C8: in every state in which the module is loaded, one invocation of `sample` or of
`sample_version` issues exactly one call to the host, a `sqlite3_result_text` on the context
it was given with the destructor `SQLITE_STATIC`; no `result_error` call is issued, nothing
else of the state changes, and the outcome is the same for every `argc` and `argv`. -/
theorem callback_effects {σ : Type} (api : sqlite3_api_routines σ) (w : World σ)
    (hdr : Header) (context : Nat) (argc : Int) (argv : List Nat)
    (h : w.sqlite3_api = some api) :
    (∃ a : ResultText,
        sample context argc argv w =
          some { sqlite3_api := w.sqlite3_api
                 host := api.result_text a w.host
                 errSlots := w.errSlots
                 calls := w.calls ++ [ApiCall.result_text a] } ∧
        a.context = context ∧ a.destructor = SQLITE_STATIC ∧
        (∀ c z n, ApiCall.result_error c z n ∉ [ApiCall.result_text a]) ∧
        ∀ (argc2 : Int) (argv2 : List Nat),
          sample context argc2 argv2 w = sample context argc argv w) ∧
    (∃ a : ResultText,
        sample_version hdr context argc argv w =
          some { sqlite3_api := w.sqlite3_api
                 host := api.result_text a w.host
                 errSlots := w.errSlots
                 calls := w.calls ++ [ApiCall.result_text a] } ∧
        a.context = context ∧ a.destructor = SQLITE_STATIC ∧
        (∀ c z n, ApiCall.result_error c z n ∉ [ApiCall.result_text a]) ∧
        ∀ (argc2 : Int) (argv2 : List Nat),
          sample_version hdr context argc2 argv2 w = sample_version hdr context argc argv w) :=
  ⟨⟨_, sqlite3_result_text_bound api w _ h, rfl, rfl, fun _ _ _ => by simp, fun _ _ => rfl⟩,
    ⟨_, sqlite3_result_text_bound api w _ h, rfl, rfl, fun _ _ _ => by simp, fun _ _ => rfl⟩⟩

/-- C8 in the state after a successful load, with two arguments passed. -/
theorem callback_effects_witness :
    loadedWorld.sqlite3_api = some okHost ∧
    ((∃ a : ResultText,
        sample 11 2 [5, 6] loadedWorld =
          some { sqlite3_api := loadedWorld.sqlite3_api
                 host := okHost.result_text a loadedWorld.host
                 errSlots := loadedWorld.errSlots
                 calls := loadedWorld.calls ++ [ApiCall.result_text a] } ∧
        a.context = 11 ∧ a.destructor = SQLITE_STATIC ∧
        (∀ c z n, ApiCall.result_error c z n ∉ [ApiCall.result_text a]) ∧
        ∀ (argc2 : Int) (argv2 : List Nat),
          sample 11 argc2 argv2 loadedWorld = sample 11 2 [5, 6] loadedWorld) ∧
    (∃ a : ResultText,
        sample_version sqlite_sample_h 11 2 [5, 6] loadedWorld =
          some { sqlite3_api := loadedWorld.sqlite3_api
                 host := okHost.result_text a loadedWorld.host
                 errSlots := loadedWorld.errSlots
                 calls := loadedWorld.calls ++ [ApiCall.result_text a] } ∧
        a.context = 11 ∧ a.destructor = SQLITE_STATIC ∧
        (∀ c z n, ApiCall.result_error c z n ∉ [ApiCall.result_text a]) ∧
        ∀ (argc2 : Int) (argv2 : List Nat),
          sample_version sqlite_sample_h 11 argc2 argv2 loadedWorld =
            sample_version sqlite_sample_h 11 2 [5, 6] loadedWorld)) :=
  ⟨rfl, callback_effects okHost loadedWorld sqlite_sample_h 11 2 [5, 6] rfl⟩

/-! ## The API version -/

/-- C6, counterexample: the API surface of `okHost` has version 0, the lowest there is, and
`sqlite3_sample_init` returns OK after issuing both registration requests. -/
theorem init_version_zero_registers :
    okHost.version = 0 ∧
      (sqlite3_sample_init 7 none (some okHost) (World.initial ())).map
          (fun r => (r.1, r.2.calls)) =
        some (SQLITE_OK, [ApiCall.create_function_v2 (sampleRequest 7),
          ApiCall.create_function_v2 (sampleVersionRequest 7)]) := by
  decide

/-- C6, amended: `sqlite3_sample_init` does not look at the version of the API surface.
For every API surface it returns, the first call it issues is the registration of `sample`,
and an API surface that differs only in its version gives the same status, the same host
state and the same calls. -/
theorem sqlite3_sample_init_version_blind {σ : Type} (db : Nat) (pzErrMsg : Option Nat)
    (api : sqlite3_api_routines σ) (w : World σ) :
    ∃ rc w1, sqlite3_sample_init db pzErrMsg (some api) w = some (rc, w1) ∧
      (∃ later, w1.calls = w.calls ++ ApiCall.create_function_v2 (sampleRequest db) :: later) ∧
      ∀ v : Nat, ∃ w2,
        sqlite3_sample_init db pzErrMsg
            (some { version := v
                    create_function_v2 := api.create_function_v2
                    result_text := api.result_text }) w = some (rc, w2) ∧
          w2.host = w1.host ∧ w2.calls = w1.calls := by
  by_cases h : (api.create_function_v2 (sampleRequest db) w.host).1 = SQLITE_OK
  · refine ⟨_, _, init_sample_accepted db pzErrMsg api w h,
      ⟨[ApiCall.create_function_v2 (sampleVersionRequest db)], rfl⟩, fun v => ?_⟩
    exact ⟨_, init_sample_accepted db pzErrMsg _ w h, rfl, rfl⟩
  · refine ⟨_, _, init_sample_rejected db pzErrMsg api w h, ⟨[], rfl⟩, fun v => ?_⟩
    exact ⟨_, init_sample_rejected db pzErrMsg _ w h, rfl, rfl⟩

/-! ## The catalog after a failed load -/

/-- C7, counterexample: at the host that accepts `sample` and rejects `sample_version`,
starting from an empty catalog, `sqlite3_sample_init` returns `SQLITE_ERROR`, which is not
OK, and the catalog after the call holds the entry for `sample`. -/
theorem init_leaves_sample_registered :
    (World.initial (([] : Catalog), ())).host.1 = [] ∧
      SQLITE_ERROR ≠ SQLITE_OK ∧
      (sqlite3_sample_init 7 none (some (catalogHost 0 rejectSampleVersion))
          (World.initial ([], ()))).map (fun r => (r.1, r.2.host.1)) =
        some (SQLITE_ERROR, [sampleRequest 7]) := by
  decide

/-- C7, amended: at a host with a catalog, `sqlite3_sample_init` returns, and when its
status is not OK then either the registration of `sample` failed with that status and the
catalog is as before, or `sample` was accepted, the registration of `sample_version` failed
with that status and the catalog is the one before plus the entry for `sample`.  No
rollback takes place, and `sample_version` is added only when the status is OK. -/
theorem sqlite3_sample_init_failure_catalog {τ : Type} (db : Nat) (pzErrMsg : Option Nat)
    (version : Nat) (behaviour : CreateFunctionV2 → Catalog → τ → Status × τ)
    (w : World (Catalog × τ)) :
    ∃ rc w1, sqlite3_sample_init db pzErrMsg (some (catalogHost version behaviour)) w =
        some (rc, w1) ∧
      (rc ≠ SQLITE_OK →
        (rc = (behaviour (sampleRequest db) w.host.1 w.host.2).1 ∧
          w1.host.1 = w.host.1) ∨
        ((behaviour (sampleRequest db) w.host.1 w.host.2).1 = SQLITE_OK ∧
          rc = (behaviour (sampleVersionRequest db) (w.host.1 ++ [sampleRequest db])
            (behaviour (sampleRequest db) w.host.1 w.host.2).2).1 ∧
          w1.host.1 = w.host.1 ++ [sampleRequest db])) ∧
      (rc = SQLITE_OK →
        w1.host.1 = w.host.1 ++ [sampleRequest db, sampleVersionRequest db]) := by
  by_cases h : (behaviour (sampleRequest db) w.host.1 w.host.2).1 = SQLITE_OK
  · have h1 : ((catalogHost version behaviour).create_function_v2 (sampleRequest db)
        w.host).1 = SQLITE_OK := h
    refine ⟨_, _, init_sample_accepted db pzErrMsg _ w h1, fun hne => Or.inr ⟨h, ?_, ?_⟩,
      fun hok => ?_⟩
    · simp [catalogHost, h]
    · simp only [catalogHost, h, if_true] at hne ⊢
      simp [hne]
    · simp only [catalogHost, h, if_true] at hok ⊢
      simp [hok]
  · have h1 : ((catalogHost version behaviour).create_function_v2 (sampleRequest db)
        w.host).1 ≠ SQLITE_OK := h
    refine ⟨_, _, init_sample_rejected db pzErrMsg _ w h1, fun _ => Or.inl ⟨rfl, ?_⟩,
      fun hok => absurd hok h⟩
    simp [catalogHost, h]

/-- C7, amended, at the host that rejects `sample_version`, from an empty catalog. -/
theorem sqlite3_sample_init_failure_catalog_witness :
    ∃ rc w1, sqlite3_sample_init 7 none (some (catalogHost 0 rejectSampleVersion))
          (World.initial ([], ())) = some (rc, w1) ∧
      (rc ≠ SQLITE_OK →
        (rc = (rejectSampleVersion (sampleRequest 7)
              (World.initial (([] : Catalog), ())).host.1
              (World.initial (([] : Catalog), ())).host.2).1 ∧
          w1.host.1 = (World.initial (([] : Catalog), ())).host.1) ∨
        ((rejectSampleVersion (sampleRequest 7)
              (World.initial (([] : Catalog), ())).host.1
              (World.initial (([] : Catalog), ())).host.2).1 = SQLITE_OK ∧
          rc = (rejectSampleVersion (sampleVersionRequest 7)
            ((World.initial (([] : Catalog), ())).host.1 ++ [sampleRequest 7])
            (rejectSampleVersion (sampleRequest 7)
              (World.initial (([] : Catalog), ())).host.1
              (World.initial (([] : Catalog), ())).host.2).2).1 ∧
          w1.host.1 = (World.initial (([] : Catalog), ())).host.1 ++ [sampleRequest 7])) ∧
      (rc = SQLITE_OK →
        w1.host.1 = (World.initial (([] : Catalog), ())).host.1 ++
          [sampleRequest 7, sampleVersionRequest 7]) :=
  sqlite3_sample_init_failure_catalog 7 none 0 rejectSampleVersion (World.initial ([], ()))

/-! ## The state of the module and the error-message slot -/

/-- C9, counterexample: before the load the API pointer of the module is null, and after
`sqlite3_sample_init` has returned at `okHost` it is not. -/
theorem init_changes_module_state :
    (World.initial ()).sqlite3_api.isSome = false ∧
      (sqlite3_sample_init 7 none (some okHost) (World.initial ())).map
          (fun r => (r.1, r.2.sqlite3_api.isSome)) = some (SQLITE_OK, true) := by
  decide

/-- C9, amended: the state of the module is the file-scope API pointer `sqlite3_api`.
`sqlite3_sample_init` called with a non-null `pApi` returns with that pointer set to `pApi`,
whatever it was before, so the API surface stays bound after the call; the two callbacks
return with the pointer as it was when it is bound, and have no defined result when it is
null. -/
theorem module_state_after_calls {σ : Type} (db : Nat) (pzErrMsg : Option Nat)
    (api : sqlite3_api_routines σ) (w : World σ) (hdr : Header)
    (context : Nat) (argc : Int) (argv : List Nat) :
    (∃ rc w1, sqlite3_sample_init db pzErrMsg (some api) w = some (rc, w1) ∧
        w1.sqlite3_api = some api) ∧
      (w.sqlite3_api = some api →
        (∃ w1, sample context argc argv w = some w1 ∧ w1.sqlite3_api = w.sqlite3_api) ∧
        (∃ w1, sample_version hdr context argc argv w = some w1 ∧
          w1.sqlite3_api = w.sqlite3_api)) ∧
      (w.sqlite3_api = none →
        sample context argc argv w = none ∧ sample_version hdr context argc argv w = none) := by
  refine ⟨?_, fun h => ?_, fun h => ?_⟩
  · by_cases h : (api.create_function_v2 (sampleRequest db) w.host).1 = SQLITE_OK
    · exact ⟨_, _, init_sample_accepted db pzErrMsg api w h, rfl⟩
    · exact ⟨_, _, init_sample_rejected db pzErrMsg api w h, rfl⟩
  · exact ⟨⟨_, sqlite3_result_text_bound api w _ h, rfl⟩,
      ⟨_, sqlite3_result_text_bound api w _ h, rfl⟩⟩
  · simp [sample, sample_version, sqlite3_result_text, h]

/-- C9, amended, in the state after a successful load. -/
theorem module_state_after_calls_witness :
    loadedWorld.sqlite3_api = some okHost ∧
    ((∃ rc w1, sqlite3_sample_init 7 none (some okHost) loadedWorld = some (rc, w1) ∧
        w1.sqlite3_api = some okHost) ∧
      (loadedWorld.sqlite3_api = some okHost →
        (∃ w1, sample 11 0 [] loadedWorld = some w1 ∧
          w1.sqlite3_api = loadedWorld.sqlite3_api) ∧
        (∃ w1, sample_version sqlite_sample_h 11 0 [] loadedWorld = some w1 ∧
          w1.sqlite3_api = loadedWorld.sqlite3_api)) ∧
      (loadedWorld.sqlite3_api = none →
        sample 11 0 [] loadedWorld = none ∧
          sample_version sqlite_sample_h 11 0 [] loadedWorld = none)) :=
  ⟨rfl, module_state_after_calls 7 none okHost loadedWorld sqlite_sample_h 11 0 []⟩

/-- C10: for every host and every `pzErrMsg`, `sqlite3_sample_init` returns with every
string pointer in memory as it was before the call, the one `pzErrMsg` designates
included: on no path does it write an error message. -/
theorem sqlite3_sample_init_errmsg_untouched {σ : Type} (db : Nat) (pzErrMsg : Option Nat)
    (api : sqlite3_api_routines σ) (w : World σ) :
    ∃ rc w1, sqlite3_sample_init db pzErrMsg (some api) w = some (rc, w1) ∧
      w1.errSlots = w.errSlots ∧
      pzErrMsg.map w1.errSlots = pzErrMsg.map w.errSlots := by
  by_cases h : (api.create_function_v2 (sampleRequest db) w.host).1 = SQLITE_OK
  · exact ⟨_, _, init_sample_accepted db pzErrMsg api w h, rfl, rfl⟩
  · exact ⟨_, _, init_sample_rejected db pzErrMsg api w h, rfl, rfl⟩

end SqliteSample
